import Mathlib

/-!
Verification of the gastown runtime-abstraction layer (package
`internal/runtime` and its claude/codex adapters) against its
natural-language specification.

The Go code is shallowly embedded: the tmux backend (an external
collaborator, package `internal/tmux`) is modelled as a structure of
response functions (`TmuxBehavior`), and every adapter operation is a
pure Lean function returning its Go result together with the list of
backend calls it issued (`List TmuxCall`).  Real time is modelled by
counting poll iterations (one iteration per 200ms poll interval) and by
millisecond offsets attached to keystroke calls.
-/

/-- Go `strings.TrimSpace` whitespace test, restricted to the ASCII
whitespace characters (space, tab, newline, vertical tab, form feed,
carriage return). -/
def goIsSpace (c : Char) : Bool :=
  c = ' ' || c = '\t' || c = '\n' || c = '\x0b' || c = '\x0c' || c = '\r'

/-- Drop the leading whitespace characters of a character list. -/
def dropLeadingSpaces : List Char → List Char
  | [] => []
  | c :: cs => if goIsSpace c then dropLeadingSpaces cs else c :: cs

/-- Embedding of Go `strings.TrimSpace`: remove whitespace from both
ends of a string. -/
def trimSpace (s : String) : String :=
  String.mk (dropLeadingSpaces ((dropLeadingSpaces s.data.reverse).reverse))

/-- Embedding of Go `strings.HasPrefix s p`. -/
def strStartsWith (s p : String) : Bool :=
  p.data.isPrefixOf s.data

/-- The first element of Go `strings.Split(s, "\n")`: the text before
the first newline (the whole string when there is none). -/
def firstLine (s : String) : String :=
  String.mk (s.data.takeWhile (fun c => !(c = '\n')))

/-- Delivery channel constant `DeliveryStdin` from internal/runtime/types.go. -/
def DeliveryStdin : String := "stdin"

/-- Delivery channel constant `DeliveryTmux` from internal/runtime/types.go. -/
def DeliveryTmux : String := "tmux"

/-- Delivery channel constant `DeliveryRPC` from internal/runtime/types.go. -/
def DeliveryRPC : String := "rpc"

/-- Readiness mode constant `ReadinessPrompt` from internal/runtime/types.go. -/
def ReadinessPrompt : String := "prompt"

/-- Readiness mode constant `ReadinessWarmup` from internal/runtime/types.go. -/
def ReadinessWarmup : String := "warmup"

/-- `runtime.StartOptions`: a launch request.  The canonical adapters
read `SessionID` and `Command` in addition to the documented fields. -/
structure StartOptions where
  workDir : String
  runtimeName : String
  accountDir : String
  env : List (String × String)
  initialPrompt : String
  mode : String
  sessionID : String
  command : String
deriving DecidableEq

/-- `runtime.SessionHandle`: identity and timing snapshot of a running
session.  Timestamps are modelled as natural-number milliseconds; the Go
zero value of a time field is modelled as `0`. -/
structure SessionHandle where
  runtime : String
  sessionID : String
  workDir : String
  pid : Nat
  startedAt : Nat
  readyAt : Nat
deriving DecidableEq

/-- `runtime.Message`: a delivery request. -/
structure Message where
  text : String
  delivery : String
  timeout : Nat
deriving DecidableEq

/-- `runtime.SessionFilter`: scopes `ListSessions` results. -/
structure SessionFilter where
  runtime : String
  workDir : String
deriving DecidableEq

/-- `context.Context` as the adapters can observe it: only whether the
caller has cancelled. -/
structure Ctx where
  cancelled : Bool
deriving DecidableEq

/-- One primitive call into the tmux backend, as recorded by the
adapter operations.  `sendLiteral` and `sendEnter` carry the
millisecond offset (within one delivery) at which they are issued. -/
inductive TmuxCall where
  | sendKeys (session keys : String)
  | waitForCommand (session : String)
  | capturePane (session : String) (lineCount : Nat)
  | sendLiteral (atMs : Nat) (session text : String)
  | sendEnter (atMs : Nat) (session : String)
  | killSession (session : String)
  | listSessions
  | findByWorkDir (workDir : String)
  | hasSession (session : String)
  | getPaneCommand (session : String)
  | getPaneWorkDir (session : String)
  | waitForShellReady (session : String)
deriving DecidableEq

/-- Model of the tmux backend (`internal/tmux`, an external collaborator):
the response each primitive gives.  `capture session i` is the result of
`CapturePaneLines(session, 10)` at the i-th poll of a readiness loop
(`none` models a capture error). -/
structure TmuxBehavior where
  sendKeys : String → String → Except String Unit
  waitForCommand : String → Except String Unit
  capture : String → Nat → Option (List String)
  sendLiteral : String → String → Except String Unit
  sendEnter : String → Except String Unit
  killSession : String → Except String Unit
  listSessions : Except String (List String)
  findSessionByWorkDir : String → Except String (List String)
  hasSession : String → Except String Bool
  isClaudeRunning : String → Bool
  getPaneCommand : String → Except String String
  getPaneWorkDir : String → Except String String
  waitForShellReady : String → Except String Unit

/-- The fixed poll interval of the readiness loop: 200ms. -/
def pollIntervalMs : Nat := 200

/-- Number of loop iterations a deadline-based poll loop performs for a
given timeout: one iteration every `pollIntervalMs`, while the current
time is before the deadline. -/
def numPolls (timeoutMs : Nat) : Nat :=
  (timeoutMs + pollIntervalMs - 1) / pollIntervalMs

namespace Claude

/-- The prompt test of `WaitForClaudeReady`: the line trimmed of
whitespace starts with "> ", or is exactly ">". -/
def isPromptLine (line : String) : Bool :=
  strStartsWith (trimSpace line) "> " || trimSpace line == ">"

/-- The timeout error of `WaitForClaudeReady`. -/
def timeoutErr : String := "timeout waiting for Claude prompt"

/-- The poll loop of `WaitForClaudeReady`: at each of the remaining
`fuel` iterations, capture the pane (poll index `i`); on a capture
error sleep and retry; on success scan the lines for the prompt; on a
match return immediately, otherwise sleep and retry; when the deadline
passes return the timeout error.  The second component counts the
capture calls performed. -/
def waitForClaudeReadyLoop (cap : Nat → Option (List String)) :
    Nat → Nat → Except String Unit × Nat
  | 0, _ => (Except.error timeoutErr, 0)
  | fuel + 1, i =>
    match cap i with
    | none =>
        let rest := waitForClaudeReadyLoop cap fuel (i + 1)
        (rest.1, rest.2 + 1)
    | some lines =>
        if lines.any isPromptLine then (Except.ok (), 1)
        else
          let rest := waitForClaudeReadyLoop cap fuel (i + 1)
          (rest.1, rest.2 + 1)

/-- `claude.WaitForClaudeReady(t, session, timeout)`: poll until the
prompt indicator appears or the timeout elapses. -/
def WaitForClaudeReady (b : TmuxBehavior) (session : String) (timeoutMs : Nat) :
    Except String Unit × Nat :=
  waitForClaudeReadyLoop (b.capture session) (numPolls timeoutMs) 0

/-- The 2-second timeout `IsReady` passes to `WaitForClaudeReady`. -/
def isReadyTimeoutMs : Nat := 2000

/-- `claude.Runtime`: the Claude Code runtime adapter.  The `tmux`
pointer is `none` when nil. -/
structure Runtime where
  tmux : Option TmuxBehavior
  command : String
  args : List String
  readinessMode : String

/-- `claude.New`: an adapter bound to a tmux instance, with prompt
readiness mode. -/
def New (t : Option TmuxBehavior) : Runtime :=
  { tmux := t, command := "", args := [], readinessMode := ReadinessPrompt }

/-- `claude.errNotImplemented`. -/
def errNotImplemented : String := "claude runtime adapter not wired for this operation"

/-- `claude.Runtime.Start`: validate, send the launch command, wait
(non-fatally) for the command, sleep a 10s warmup, and return a handle.
`now` is the value of `time.Now()` at the return. -/
def Runtime.Start (r : Runtime) (opts : StartOptions) (now : Nat) :
    Except String SessionHandle × List TmuxCall :=
  match r.tmux with
  | none => (Except.error "claude runtime requires tmux", [])
  | some b =>
    if opts.sessionID = "" then (Except.error "claude runtime requires session id", [])
    else if opts.command = "" then (Except.error "claude runtime requires command", [])
    else
      match b.sendKeys opts.sessionID opts.command with
      | Except.error e => (Except.error e, [TmuxCall.sendKeys opts.sessionID opts.command])
      | Except.ok () =>
          (Except.ok { runtime := "claude", sessionID := opts.sessionID,
                       workDir := opts.workDir, pid := 0, startedAt := now, readyAt := 0 },
           [TmuxCall.sendKeys opts.sessionID opts.command,
            TmuxCall.waitForCommand opts.sessionID])

/-- `claude.Runtime.Resume`: not implemented in the adapter. -/
def Runtime.Resume (r : Runtime) (handle : SessionHandle) : Except String Unit :=
  Except.error errNotImplemented

/-- The settle delay of the two-step keystroke protocol: 500ms. -/
def settleDelayMs : Nat := 500

/-- Modelled from the spec: `tmux.NudgeSession` lives in `internal/tmux`,
which is not under src/; the nudge command documents its delivery
pattern as: send the text in literal mode, wait 500ms for the paste to
complete, then send Enter as a separate command. -/
def nudgeSession (b : TmuxBehavior) (session text : String) :
    Except String Unit × List TmuxCall :=
  match b.sendLiteral session text with
  | Except.error e => (Except.error e, [TmuxCall.sendLiteral 0 session text])
  | Except.ok () =>
    match b.sendEnter session with
    | Except.error e =>
        (Except.error e,
         [TmuxCall.sendLiteral 0 session text, TmuxCall.sendEnter settleDelayMs session])
    | Except.ok () =>
        (Except.ok (),
         [TmuxCall.sendLiteral 0 session text, TmuxCall.sendEnter settleDelayMs session])

/-- `claude.Runtime.SendMessage`: only tmux delivery (or the empty
default) is accepted; delivery goes through `NudgeSession`. -/
def Runtime.SendMessage (r : Runtime) (handle : SessionHandle) (msg : Message) :
    Except String Unit × List TmuxCall :=
  match r.tmux with
  | none => (Except.error "claude runtime requires tmux", [])
  | some b =>
    if msg.delivery ≠ "" ∧ msg.delivery ≠ DeliveryTmux then
      (Except.error "claude runtime only supports tmux delivery", [])
    else nudgeSession b handle.sessionID msg.text

/-- `claude.Runtime.Stop`: kill the backend session. -/
def Runtime.Stop (r : Runtime) (handle : SessionHandle) (reason : String) :
    Except String Unit × List TmuxCall :=
  match r.tmux with
  | none => (Except.error "claude runtime requires tmux", [])
  | some b => (b.killSession handle.sessionID, [TmuxCall.killSession handle.sessionID])

/-- `claude.Runtime.IsReady`: run `WaitForClaudeReady` with a 2s
timeout; an error (the timeout) becomes `ok false`, success `ok true`.
The context is accepted but never inspected, as in the source.  The
second component counts the capture calls performed. -/
def Runtime.IsReady (r : Runtime) (ctx : Ctx) (handle : SessionHandle) :
    Except String Bool × Nat :=
  match r.tmux with
  | none => (Except.error "claude runtime requires tmux", 0)
  | some b =>
    match WaitForClaudeReady b handle.sessionID isReadyTimeoutMs with
    | (Except.error _, n) => (Except.ok false, n)
    | (Except.ok _, n) => (Except.ok true, n)

/-- `claude.Runtime.DetectRunning`: inspect the foreground command. -/
def Runtime.DetectRunning (r : Runtime) (handle : SessionHandle) :
    Except String Bool :=
  match r.tmux with
  | none => Except.error "claude runtime requires tmux"
  | some b => Except.ok (b.isClaudeRunning handle.sessionID)

/-- The handle construction of `ListSessions`: skip empty names, keep
only `Runtime` and `SessionID` populated. -/
def sessionsToHandles (sessions : List String) : List SessionHandle :=
  (sessions.filter (fun s => s ≠ "")).map
    (fun s => { runtime := "claude", sessionID := s, workDir := "",
                pid := 0, startedAt := 0, readyAt := 0 })

/-- `claude.Runtime.ListSessions`: with a non-empty working-directory
filter query `FindSessionByWorkDir`, otherwise `ListSessions`; wrap the
non-empty names into partial handles. -/
def Runtime.ListSessions (r : Runtime) (filter : SessionFilter) :
    Except String (List SessionHandle) × List TmuxCall :=
  match r.tmux with
  | none => (Except.error "claude runtime requires tmux", [])
  | some b =>
    if filter.workDir ≠ "" then
      match b.findSessionByWorkDir filter.workDir with
      | Except.error e => (Except.error e, [TmuxCall.findByWorkDir filter.workDir])
      | Except.ok sessions =>
          (Except.ok (sessionsToHandles sessions), [TmuxCall.findByWorkDir filter.workDir])
    else
      match b.listSessions with
      | Except.error e => (Except.error e, [TmuxCall.listSessions])
      | Except.ok sessions =>
          (Except.ok (sessionsToHandles sessions), [TmuxCall.listSessions])

end Claude

namespace Codex

/-- `codex.Runtime`: the Codex runtime adapter. -/
structure Runtime where
  tmux : Option TmuxBehavior
  command : String
  args : List String
  readinessMode : String

/-- `codex.New`: an adapter bound to a tmux instance, with warmup
readiness mode. -/
def New (t : Option TmuxBehavior) : Runtime :=
  { tmux := t, command := "", args := [], readinessMode := ReadinessWarmup }

/-- `codex.Runtime.Start`: validate, send the launch command, wait
(non-fatally) for the command, sleep a 5s warmup, and return a handle. -/
def Runtime.Start (r : Runtime) (opts : StartOptions) (now : Nat) :
    Except String SessionHandle × List TmuxCall :=
  match r.tmux with
  | none => (Except.error "codex runtime requires tmux", [])
  | some b =>
    if opts.sessionID = "" then (Except.error "codex runtime requires session id", [])
    else if opts.command = "" then (Except.error "codex runtime requires command", [])
    else
      match b.sendKeys opts.sessionID opts.command with
      | Except.error e => (Except.error e, [TmuxCall.sendKeys opts.sessionID opts.command])
      | Except.ok () =>
          (Except.ok { runtime := "codex", sessionID := opts.sessionID,
                       workDir := opts.workDir, pid := 0, startedAt := now, readyAt := 0 },
           [TmuxCall.sendKeys opts.sessionID opts.command,
            TmuxCall.waitForCommand opts.sessionID])

/-- `codex.Runtime.SendMessage` (canonical version): accept the empty,
tmux, and stdin channels and inject the text via `SendKeys`; any other
channel is rejected with no backend call. -/
def Runtime.SendMessage (r : Runtime) (handle : SessionHandle) (msg : Message) :
    Except String Unit × List TmuxCall :=
  match r.tmux with
  | none => (Except.error "codex runtime requires tmux", [])
  | some b =>
    if msg.delivery = "" ∨ msg.delivery = DeliveryTmux ∨ msg.delivery = DeliveryStdin then
      (b.sendKeys handle.sessionID msg.text, [TmuxCall.sendKeys handle.sessionID msg.text])
    else
      (Except.error "codex runtime only supports tmux/stdin delivery", [])

/-- `codex.isCodexRunning`: the session exists and its foreground pane
command is `codex` or `node`. -/
def isCodexRunning (b : TmuxBehavior) (sessionID : String) :
    Except String Bool × List TmuxCall :=
  match b.hasSession sessionID with
  | Except.error e => (Except.error e, [TmuxCall.hasSession sessionID])
  | Except.ok false => (Except.ok false, [TmuxCall.hasSession sessionID])
  | Except.ok true =>
    match b.getPaneCommand sessionID with
    | Except.error e =>
        (Except.error e, [TmuxCall.hasSession sessionID, TmuxCall.getPaneCommand sessionID])
    | Except.ok cmd =>
        if cmd = "codex" ∨ cmd = "node" then
          (Except.ok true, [TmuxCall.hasSession sessionID, TmuxCall.getPaneCommand sessionID])
        else
          (Except.ok false, [TmuxCall.hasSession sessionID, TmuxCall.getPaneCommand sessionID])

/-- `codex.readSessionID`: read the persisted session id from
`filepath.Join(workDir, constants.DirRuntime, "session_id")` — the
first line of the file, trimmed; an empty working directory or a read
failure yields the empty string.  `fs` models `os.ReadFile` (`none` is
a read error, absence included); `dirRuntime` is the value of
`constants.DirRuntime` (internal/constants is not under src/). -/
def readSessionID (fs : String → Option String) (dirRuntime workDir : String) : String :=
  if workDir = "" then ""
  else
    match fs (workDir ++ "/" ++ dirRuntime ++ "/session_id") with
    | none => ""
    | some data => trimSpace (firstLine data)

/-- The tail of `codex.Runtime.Resume` after the already-running
short-circuit declined: resolve the working directory (the pane's when
the handle's is empty, errors dropped), read the persisted session id,
build the resume command via `config.BuildResumeCommand` (modelled by
the `buildResumeCommand` argument; internal/config's builder is not
under src/), wait for the shell, send the command, and wait
(non-fatally) for it, with a 5s warmup sleep.  `pre` is the call log
accumulated so far. -/
def resumeLaunch (b : TmuxBehavior) (fs : String → Option String)
    (buildResumeCommand : String → String → String) (dirRuntime : String)
    (handle : SessionHandle) (pre : List TmuxCall) :
    Except String Unit × List TmuxCall :=
  let wdPair : String × List TmuxCall :=
    if handle.workDir ≠ "" then (handle.workDir, pre)
    else
      match b.getPaneWorkDir handle.sessionID with
      | Except.ok d => (d, pre ++ [TmuxCall.getPaneWorkDir handle.sessionID])
      | Except.error _ => ("", pre ++ [TmuxCall.getPaneWorkDir handle.sessionID])
  let sid := readSessionID fs dirRuntime wdPair.1
  if sid = "" then
    (Except.error ("codex runtime resume missing session id in " ++ wdPair.1), wdPair.2)
  else
    let resumeCmd := buildResumeCommand "codex" sid
    if resumeCmd = "" then
      (Except.error "codex runtime resume command unavailable", wdPair.2)
    else
      match b.waitForShellReady handle.sessionID with
      | Except.error e =>
          (Except.error e, wdPair.2 ++ [TmuxCall.waitForShellReady handle.sessionID])
      | Except.ok () =>
        match b.sendKeys handle.sessionID resumeCmd with
        | Except.error e =>
            (Except.error e,
             wdPair.2 ++ [TmuxCall.waitForShellReady handle.sessionID,
                          TmuxCall.sendKeys handle.sessionID resumeCmd])
        | Except.ok () =>
            (Except.ok (),
             wdPair.2 ++ [TmuxCall.waitForShellReady handle.sessionID,
                          TmuxCall.sendKeys handle.sessionID resumeCmd,
                          TmuxCall.waitForCommand handle.sessionID])

/-- `codex.Runtime.Resume` (canonical version): validate, require the
backend session to exist, return success immediately when codex is
already running in it, and otherwise launch the resume command via
`resumeLaunch`.  Note the source checks `HasSession` twice: once
directly and once inside `isCodexRunning`. -/
def Runtime.Resume (r : Runtime) (fs : String → Option String)
    (buildResumeCommand : String → String → String) (dirRuntime : String)
    (handle : SessionHandle) : Except String Unit × List TmuxCall :=
  match r.tmux with
  | none => (Except.error "codex runtime requires tmux", [])
  | some b =>
    if handle.sessionID = "" then
      (Except.error "codex runtime requires session id", [])
    else
      match b.hasSession handle.sessionID with
      | Except.error e => (Except.error e, [TmuxCall.hasSession handle.sessionID])
      | Except.ok false =>
          (Except.error "codex runtime session not found",
           [TmuxCall.hasSession handle.sessionID])
      | Except.ok true =>
        match isCodexRunning b handle.sessionID with
        | (Except.ok true, rcalls) =>
            (Except.ok (), TmuxCall.hasSession handle.sessionID :: rcalls)
        | (Except.ok false, rcalls) =>
            resumeLaunch b fs buildResumeCommand dirRuntime handle
              (TmuxCall.hasSession handle.sessionID :: rcalls)
        | (Except.error _, rcalls) =>
            resumeLaunch b fs buildResumeCommand dirRuntime handle
              (TmuxCall.hasSession handle.sessionID :: rcalls)

end Codex

/-- A backend send operation: a keystroke-injection call. -/
def isSendCall : TmuxCall → Bool
  | TmuxCall.sendKeys _ _ => true
  | TmuxCall.sendLiteral _ _ _ => true
  | TmuxCall.sendEnter _ _ => true
  | _ => false

namespace Registry

/-- The registry state: the sequence of `Register` calls made so far.
Go stores a map; the map's contents are recovered by last-wins lookup. -/
def Register {F : Type} (regs : List (String × F)) (name : String) (f : F) :
    List (String × F) :=
  regs ++ [(name, f)]

/-- Lookup in the registry map built by a sequence of `Register` calls:
the most recent registration for a name wins (map assignment
overwrites). -/
def lookupFactory {F : Type} (regs : List (String × F)) (name : String) : Option F :=
  regs.foldl (fun acc p => if p.1 = name then some p.2 else acc) none

/-- `runtime.Get`: resolve a registered factory and construct the
adapter, or fail with the not-registered error. -/
def Get {A : Type} (regs : List (String × (Option TmuxBehavior → A)))
    (name : String) (t : Option TmuxBehavior) : Except String A :=
  match lookupFactory regs name with
  | some factory => Except.ok (factory t)
  | none => Except.error ("runtime not registered: " ++ name)

end Registry

/-- A fake tmux backend whose pane capture always returns the given
lines and whose primitives all succeed; used to evaluate the adapter
operations on concrete inputs. -/
def fakeTmux (lines : List String) : TmuxBehavior :=
  { sendKeys := fun _ _ => Except.ok ()
    waitForCommand := fun _ => Except.ok ()
    capture := fun _ _ => some lines
    sendLiteral := fun _ _ => Except.ok ()
    sendEnter := fun _ => Except.ok ()
    killSession := fun _ => Except.ok ()
    listSessions := Except.ok ["gt-a", "gt-b"]
    findSessionByWorkDir := fun _ => Except.ok ["gt-a"]
    hasSession := fun _ => Except.ok true
    isClaudeRunning := fun _ => true
    getPaneCommand := fun _ => Except.ok "zsh"
    getPaneWorkDir := fun _ => Except.ok "/w"
    waitForShellReady := fun _ => Except.ok () }

/-- A fake tmux backend whose session exists and whose foreground pane
command reports codex as already running. -/
def runningTmux : TmuxBehavior :=
  { fakeTmux [] with getPaneCommand := fun _ => Except.ok "codex" }

/-- A concrete session handle for evaluations. -/
def demoHandle : SessionHandle :=
  { runtime := "claude", sessionID := "gt-demo", workDir := "/w",
    pid := 0, startedAt := 0, readyAt := 0 }

/-- Concrete valid start options. -/
def demoOpts : StartOptions :=
  { workDir := "/w", runtimeName := "claude", accountDir := "", env := [],
    initialPrompt := "", mode := "tmux", sessionID := "gt-demo", command := "claude" }

/-- Concrete start options with an empty session id. -/
def demoEmptySidOpts : StartOptions :=
  { workDir := "/w", runtimeName := "claude", accountDir := "", env := [],
    initialPrompt := "", mode := "tmux", sessionID := "", command := "claude" }

/-- The prompt-marker predicate exactly as the claim words it: the
captured line trimmed of whitespace exactly equals, or begins with, the
prompt marker "> ". -/
def specMarkerMatch (line : String) : Bool :=
  trimSpace line == "> " || strStartsWith (trimSpace line) "> "

/-- A prompt observation at poll `k`: the capture succeeded and some
line passes the source's prompt test. -/
def capMatch (cap : Nat → Option (List String)) (k : Nat) : Prop :=
  ∃ lines, cap k = some lines ∧ lines.any Claude.isPromptLine = true

/-- Demo factory used for registry evaluations: the claude constructor,
as registered by the adapter's init. -/
def demoFactory : Option TmuxBehavior → Claude.Runtime := Claude.New

/-- An older factory for the same name, to exercise overwrite
semantics. -/
def demoFactoryOld : Option TmuxBehavior → Claude.Runtime := fun _ => Claude.New none

theorem waitLoop_succ_none (cap : Nat → Option (List String)) (fuel i : Nat)
    (hc : cap i = none) :
    Claude.waitForClaudeReadyLoop cap (fuel + 1) i =
      ((Claude.waitForClaudeReadyLoop cap fuel (i + 1)).1,
       (Claude.waitForClaudeReadyLoop cap fuel (i + 1)).2 + 1) := by
  simp [Claude.waitForClaudeReadyLoop, hc]

theorem waitLoop_succ_found (cap : Nat → Option (List String)) (fuel i : Nat)
    (lines : List String) (hc : cap i = some lines)
    (ha : lines.any Claude.isPromptLine = true) :
    Claude.waitForClaudeReadyLoop cap (fuel + 1) i = (Except.ok (), 1) := by
  simp [Claude.waitForClaudeReadyLoop, hc, ha]

theorem waitLoop_succ_nomatch (cap : Nat → Option (List String)) (fuel i : Nat)
    (lines : List String) (hc : cap i = some lines)
    (ha : lines.any Claude.isPromptLine = false) :
    Claude.waitForClaudeReadyLoop cap (fuel + 1) i =
      ((Claude.waitForClaudeReadyLoop cap fuel (i + 1)).1,
       (Claude.waitForClaudeReadyLoop cap fuel (i + 1)).2 + 1) := by
  simp [Claude.waitForClaudeReadyLoop, hc, ha]

theorem exists_shift (P : Nat → Prop) (i fuel : Nat) (hni : ¬ P i) :
    (∃ j, j < fuel ∧ P (i + 1 + j)) ↔ ∃ j, j < fuel + 1 ∧ P (i + j) := by
  constructor
  · rintro ⟨j, hj, hp⟩
    exact ⟨j + 1, by omega, by rwa [show i + (j + 1) = i + 1 + j by omega]⟩
  · rintro ⟨j, hj, hp⟩
    cases j with
    | zero => exact absurd (by simpa using hp) hni
    | succ k => exact ⟨k, by omega, by rwa [show i + 1 + k = i + (k + 1) by omega]⟩

theorem waitLoop_ok_iff (cap : Nat → Option (List String)) :
    ∀ fuel i, (Claude.waitForClaudeReadyLoop cap fuel i).1 = Except.ok () ↔
      ∃ j, j < fuel ∧ capMatch cap (i + j) := by
  intro fuel
  induction fuel with
  | zero =>
    intro i
    simp [Claude.waitForClaudeReadyLoop]
  | succ fuel ih =>
    intro i
    cases hc : cap i with
    | none =>
      have hni : ¬ capMatch cap i := by
        rintro ⟨lines, hl, -⟩
        rw [hc] at hl
        exact Option.noConfusion hl
      rw [waitLoop_succ_none cap fuel i hc]
      exact (ih (i + 1)).trans (exists_shift (capMatch cap) i fuel hni)
    | some lines =>
      by_cases ha : lines.any Claude.isPromptLine = true
      · rw [waitLoop_succ_found cap fuel i lines hc ha]
        constructor
        · intro _
          exact ⟨0, by omega, lines, by simpa using hc, ha⟩
        · intro _
          rfl
      · have ha' : lines.any Claude.isPromptLine = false := by
          simpa using ha
        have hni : ¬ capMatch cap i := by
          rintro ⟨lines2, hl, ha2⟩
          rw [hc] at hl
          cases hl
          exact ha ha2
        rw [waitLoop_succ_nomatch cap fuel i lines hc ha']
        exact (ih (i + 1)).trans (exists_shift (capMatch cap) i fuel hni)

theorem waitLoop_never (cap : Nat → Option (List String))
    (hnever : ∀ k lines, cap k = some lines → lines.any Claude.isPromptLine = false) :
    ∀ fuel i, Claude.waitForClaudeReadyLoop cap fuel i = (Except.error Claude.timeoutErr, fuel) := by
  intro fuel
  induction fuel with
  | zero => intro i; rfl
  | succ fuel ih =>
    intro i
    cases hc : cap i with
    | none => rw [waitLoop_succ_none cap fuel i hc, ih (i + 1)]
    | some lines =>
      rw [waitLoop_succ_nomatch cap fuel i lines hc (hnever i lines hc), ih (i + 1)]

theorem lookupFactory_foldl_skip {F : Type} (l : List (String × F)) (name : String) :
    ∀ acc : Option F, (∀ p ∈ l, p.1 ≠ name) →
      l.foldl (fun acc p => if p.1 = name then some p.2 else acc) acc = acc := by
  induction l with
  | nil => intro acc _; rfl
  | cons p rest ih =>
    intro acc h
    have hp : p.1 ≠ name := h p (List.mem_cons_self p rest)
    rw [List.foldl_cons, if_neg hp]
    exact ih acc (fun q hq => h q (List.mem_cons_of_mem p hq))

theorem lookupFactory_not_mem {F : Type} (regs : List (String × F)) (name : String)
    (h : ∀ p ∈ regs, p.1 ≠ name) :
    Registry.lookupFactory regs name = none :=
  lookupFactory_foldl_skip regs name none h

theorem lookupFactory_append_last {F : Type} (l₁ l₂ : List (String × F)) (name : String) (f : F)
    (h : ∀ p ∈ l₂, p.1 ≠ name) :
    Registry.lookupFactory (l₁ ++ (name, f) :: l₂) name = some f := by
  unfold Registry.lookupFactory
  rw [List.foldl_append, List.foldl_cons, if_pos rfl]
  exact lookupFactory_foldl_skip l₂ name (some f) h

/-- C1 (counterexample): a fake backend whose pane always shows
"building..." and a bare ">" never produces a line that, trimmed,
equals or begins with the marker "> " — yet prompt-strategy IsReady
returns true, because the source also accepts a trimmed line exactly
equal to ">". -/
theorem claude_isReady_bare_arrow_counterexample :
    ((["building...", ">"].all (fun l => !specMarkerMatch l)) = true) ∧
    ((Claude.New (some (fakeTmux ["building...", ">"]))).IsReady
        { cancelled := false } demoHandle).1 = Except.ok true := by
  constructor
  · rfl
  · rfl

/-- C1 (amended): with a bound backend, prompt-strategy IsReady never
returns an error, and it returns true exactly when some poll within the
2-second budget captures a line whose trimmed form begins with "> " or
is exactly ">"; otherwise it returns false once the poll budget is
exhausted. -/
theorem claude_isReady_prompt_iff (b : TmuxBehavior) (ctx : Ctx) (hdl : SessionHandle) :
    (∃ v, ((Claude.New (some b)).IsReady ctx hdl).1 = Except.ok v) ∧
    (((Claude.New (some b)).IsReady ctx hdl).1 = Except.ok true ↔
      ∃ j, j < numPolls Claude.isReadyTimeoutMs ∧
        ∃ lines, b.capture hdl.sessionID j = some lines ∧
          lines.any Claude.isPromptLine = true) := by
  have hiff := waitLoop_ok_iff (b.capture hdl.sessionID) (numPolls Claude.isReadyTimeoutMs) 0
  rcases hw : Claude.waitForClaudeReadyLoop (b.capture hdl.sessionID)
      (numPolls Claude.isReadyTimeoutMs) 0 with ⟨res, n⟩
  rw [hw] at hiff
  have hmatch : ∀ j, (0 + j = j) := fun j => Nat.zero_add j
  cases res with
  | error e =>
    have hun : (Claude.New (some b)).IsReady ctx hdl = (Except.ok false, n) := by
      simp only [Claude.Runtime.IsReady, Claude.New, Claude.WaitForClaudeReady, hw]
    rw [hun]
    constructor
    · exact ⟨false, rfl⟩
    · constructor
      · intro h
        exact absurd h (by simp)
      · intro hex
        have : (Except.error e : Except String Unit) = Except.ok () := by
          apply hiff.mpr
          rcases hex with ⟨j, hj, lines, hl, ha⟩
          exact ⟨j, hj, lines, by rwa [hmatch j], ha⟩
        exact absurd this (by simp)
  | ok u =>
    cases u
    have hun : (Claude.New (some b)).IsReady ctx hdl = (Except.ok true, n) := by
      simp only [Claude.Runtime.IsReady, Claude.New, Claude.WaitForClaudeReady, hw]
    rw [hun]
    constructor
    · exact ⟨true, rfl⟩
    · constructor
      · intro _
        rcases hiff.mp rfl with ⟨j, hj, lines, hl, ha⟩
        exact ⟨j, hj, lines, by rwa [hmatch j] at hl, ha⟩
      · intro _
        rfl

/-- C2: for a message delivered over the terminal channel (empty or
tmux delivery) whose two keystroke injections succeed, SendMessage
issues exactly two backend keystroke calls — the literal text at offset
0 and a separate Enter at the settle-delay offset — and the settle
delay is the configured 500ms.  (spec-modelled: `tmux.NudgeSession` is
not under src/.) -/
theorem claude_sendMessage_two_step (b : TmuxBehavior) (hdl : SessionHandle) (msg : Message)
    (hch : msg.delivery = "" ∨ msg.delivery = DeliveryTmux)
    (hlit : b.sendLiteral hdl.sessionID msg.text = Except.ok ())
    (hent : b.sendEnter hdl.sessionID = Except.ok ()) :
    ((Claude.New (some b)).SendMessage hdl msg).1 = Except.ok () ∧
    ((Claude.New (some b)).SendMessage hdl msg).2 =
      [TmuxCall.sendLiteral 0 hdl.sessionID msg.text,
       TmuxCall.sendEnter Claude.settleDelayMs hdl.sessionID] ∧
    Claude.settleDelayMs = 500 := by
  have hcond : ¬ (msg.delivery ≠ "" ∧ msg.delivery ≠ DeliveryTmux) := by
    rcases hch with h | h
    · intro hcon; exact hcon.1 h
    · intro hcon; exact hcon.2 h
  refine ⟨?_, ?_, rfl⟩ <;>
    simp [Claude.Runtime.SendMessage, Claude.New, Claude.nudgeSession, hcond, hlit, hent]

/-- C2 witness. -/
theorem claude_sendMessage_two_step_witness :
    ((Claude.New (some (fakeTmux []))).SendMessage demoHandle
        { text := "hello", delivery := "tmux", timeout := 0 }).2 =
      [TmuxCall.sendLiteral 0 "gt-demo" "hello", TmuxCall.sendEnter 500 "gt-demo"] := by
  have h := claude_sendMessage_two_step (fakeTmux []) demoHandle
      { text := "hello", delivery := "tmux", timeout := 0 } (Or.inr rfl) rfl rfl
  exact h.2.1.trans (by rfl)

/-- C3: for both adapters, Start with an empty session id, an empty
launch command, or no bound backend fails with the corresponding
validation (configuration) error and issues zero backend calls. -/
theorem start_validation_no_side_effect (tc : Option TmuxBehavior) (opts : StartOptions)
    (now : Nat)
    (hbad : opts.sessionID = "" ∨ opts.command = "" ∨ tc = none) :
    ((∃ e, ((Claude.New tc).Start opts now).1 = Except.error e ∧
        (e = "claude runtime requires tmux" ∨ e = "claude runtime requires session id" ∨
         e = "claude runtime requires command")) ∧
      ((Claude.New tc).Start opts now).2 = []) ∧
    ((∃ e, ((Codex.New tc).Start opts now).1 = Except.error e ∧
        (e = "codex runtime requires tmux" ∨ e = "codex runtime requires session id" ∨
         e = "codex runtime requires command")) ∧
      ((Codex.New tc).Start opts now).2 = []) := by
  cases tc with
  | none =>
    exact ⟨⟨⟨_, rfl, Or.inl rfl⟩, rfl⟩, ⟨⟨_, rfl, Or.inl rfl⟩, rfl⟩⟩
  | some b =>
    by_cases hsid : opts.sessionID = ""
    · have h1 : (Claude.New (some b)).Start opts now =
          (Except.error "claude runtime requires session id", []) := by
        simp [Claude.Runtime.Start, Claude.New, hsid]
      have h2 : (Codex.New (some b)).Start opts now =
          (Except.error "codex runtime requires session id", []) := by
        simp [Codex.Runtime.Start, Codex.New, hsid]
      rw [h1, h2]
      exact ⟨⟨⟨_, rfl, Or.inr (Or.inl rfl)⟩, rfl⟩, ⟨⟨_, rfl, Or.inr (Or.inl rfl)⟩, rfl⟩⟩
    · have hcmd : opts.command = "" := by
        rcases hbad with h | h | h
        · exact absurd h hsid
        · exact h
        · exact Option.noConfusion h
      have h1 : (Claude.New (some b)).Start opts now =
          (Except.error "claude runtime requires command", []) := by
        simp [Claude.Runtime.Start, Claude.New, hsid, hcmd]
      have h2 : (Codex.New (some b)).Start opts now =
          (Except.error "codex runtime requires command", []) := by
        simp [Codex.Runtime.Start, Codex.New, hsid, hcmd]
      rw [h1, h2]
      exact ⟨⟨⟨_, rfl, Or.inr (Or.inr rfl)⟩, rfl⟩, ⟨⟨_, rfl, Or.inr (Or.inr rfl)⟩, rfl⟩⟩

/-- C3 witness. -/
theorem start_validation_no_side_effect_witness :
    ((Claude.New (some (fakeTmux []))).Start demoEmptySidOpts 0).2 = [] ∧
    ((Codex.New (some (fakeTmux []))).Start demoEmptySidOpts 0).2 = [] := by
  have h := start_validation_no_side_effect (some (fakeTmux [])) demoEmptySidOpts 0 (Or.inl rfl)
  exact ⟨h.1.2, h.2.2⟩

/-- C4: for valid StartOptions whose launch keystrokes the backend
accepts, Start returns the session handle and no error, and its result
is unchanged by any alternative outcome of the readiness wait — the
wait's failure or timeout never aborts Start and is never surfaced. -/
theorem claude_start_readiness_nonfatal (b : TmuxBehavior)
    (w : String → Except String Unit) (opts : StartOptions) (now : Nat)
    (hsid : opts.sessionID ≠ "") (hcmd : opts.command ≠ "")
    (hsend : b.sendKeys opts.sessionID opts.command = Except.ok ()) :
    ((Claude.New (some b)).Start opts now).1 =
      Except.ok { runtime := "claude", sessionID := opts.sessionID, workDir := opts.workDir,
                  pid := 0, startedAt := now, readyAt := 0 } ∧
    (Claude.New (some b)).Start opts now =
      (Claude.New (some { b with waitForCommand := w })).Start opts now := by
  refine ⟨?_, ?_⟩ <;>
    simp [Claude.Runtime.Start, Claude.New, hsid, hcmd, hsend]

/-- C4 witness. -/
theorem claude_start_readiness_nonfatal_witness :
    ((Claude.New (some (fakeTmux []))).Start demoOpts 7).1 =
      Except.ok { runtime := "claude", sessionID := "gt-demo", workDir := "/w",
                  pid := 0, startedAt := 7, readyAt := 0 } := by
  have h := claude_start_readiness_nonfatal (fakeTmux [])
      (fun _ => Except.error "wait failed") demoOpts 7 (by decide) (by decide) rfl
  exact h.1

theorem codex_resume_unfold (b : TmuxBehavior) (fs : String → Option String)
    (bld : String → String → String) (dirRuntime : String) (hdl : SessionHandle)
    (hsid : hdl.sessionID ≠ "")
    (hex : b.hasSession hdl.sessionID = Except.ok true)
    (hnr : ∀ cmd, b.getPaneCommand hdl.sessionID = Except.ok cmd →
      cmd ≠ "codex" ∧ cmd ≠ "node") :
    (Codex.New (some b)).Resume fs bld dirRuntime hdl =
      Codex.resumeLaunch b fs bld dirRuntime hdl
        [TmuxCall.hasSession hdl.sessionID, TmuxCall.hasSession hdl.sessionID,
         TmuxCall.getPaneCommand hdl.sessionID] := by
  cases hgp : b.getPaneCommand hdl.sessionID with
  | error e =>
    simp [Codex.Runtime.Resume, Codex.New, Codex.isCodexRunning, hsid, hex, hgp]
  | ok cmd =>
    have hc := hnr cmd hgp
    simp [Codex.Runtime.Resume, Codex.New, Codex.isCodexRunning, hsid, hex, hgp,
      hc.1, hc.2]

theorem resumeLaunch_missing (b : TmuxBehavior) (fs : String → Option String)
    (bld : String → String → String) (dirRuntime : String) (hdl : SessionHandle)
    (pre : List TmuxCall) (hwd : hdl.workDir ≠ "")
    (hfs : fs (hdl.workDir ++ "/" ++ dirRuntime ++ "/session_id") = none) :
    Codex.resumeLaunch b fs bld dirRuntime hdl pre =
      (Except.error ("codex runtime resume missing session id in " ++ hdl.workDir), pre) := by
  simp [Codex.resumeLaunch, Codex.readSessionID, hwd, hfs]

theorem resumeLaunch_noTemplate (b : TmuxBehavior) (fs : String → Option String)
    (bld : String → String → String) (dirRuntime : String) (hdl : SessionHandle)
    (pre : List TmuxCall) (content : String) (hwd : hdl.workDir ≠ "")
    (hfs : fs (hdl.workDir ++ "/" ++ dirRuntime ++ "/session_id") = some content)
    (hsid : trimSpace (firstLine content) ≠ "")
    (hbld : bld "codex" (trimSpace (firstLine content)) = "") :
    Codex.resumeLaunch b fs bld dirRuntime hdl pre =
      (Except.error "codex runtime resume command unavailable", pre) := by
  simp [Codex.resumeLaunch, Codex.readSessionID, hwd, hfs, hsid, hbld]

/-- C5 (counterexample): on an existing backend session in which codex
is already running (pane command "codex"), Resume returns success
immediately even though no working directory holds a persisted
session-id file — not the NotFound condition the claim requires. -/
theorem codex_resume_running_counterexample :
    ((Codex.New (some runningTmux)).Resume (fun _ => none) (fun _ _ => "codex resume x")
        "runtime" demoHandle).1 = Except.ok () ∧
    (((Codex.New (some runningTmux)).Resume (fun _ => none) (fun _ _ => "codex resume x")
        "runtime" demoHandle).2.all (fun c => !isSendCall c)) = true := by
  constructor
  · rfl
  · rfl

/-- C5 (amended): for a Resume call on an existing backend session in
which codex is not already running and whose handle carries the working
directory: when that directory lacks the persisted session-id file
(first line, trimmed) Resume returns the missing-session-id (NotFound)
error and has invoked no backend send operation; when the file yields a
non-blank id but the resume command template produces an empty command,
Resume returns the command-unavailable (ConfigurationError) error. -/
theorem codex_resume_notFound_and_config (b : TmuxBehavior) (fs : String → Option String)
    (bld : String → String → String) (dirRuntime : String) (hdl : SessionHandle)
    (hsid : hdl.sessionID ≠ "")
    (hex : b.hasSession hdl.sessionID = Except.ok true)
    (hnr : ∀ cmd, b.getPaneCommand hdl.sessionID = Except.ok cmd →
      cmd ≠ "codex" ∧ cmd ≠ "node")
    (hwd : hdl.workDir ≠ "") :
    (fs (hdl.workDir ++ "/" ++ dirRuntime ++ "/session_id") = none →
      ((Codex.New (some b)).Resume fs bld dirRuntime hdl).1 =
        Except.error ("codex runtime resume missing session id in " ++ hdl.workDir) ∧
      (((Codex.New (some b)).Resume fs bld dirRuntime hdl).2.all
        (fun c => !isSendCall c)) = true) ∧
    (∀ content, fs (hdl.workDir ++ "/" ++ dirRuntime ++ "/session_id") = some content →
      trimSpace (firstLine content) ≠ "" →
      bld "codex" (trimSpace (firstLine content)) = "" →
      ((Codex.New (some b)).Resume fs bld dirRuntime hdl).1 =
        Except.error "codex runtime resume command unavailable" ∧
      (((Codex.New (some b)).Resume fs bld dirRuntime hdl).2.all
        (fun c => !isSendCall c)) = true) := by
  have hun := codex_resume_unfold b fs bld dirRuntime hdl hsid hex hnr
  constructor
  · intro hfs
    rw [hun, resumeLaunch_missing b fs bld dirRuntime hdl _ hwd hfs]
    exact ⟨rfl, rfl⟩
  · intro content hfs hsid2 hbld
    rw [hun, resumeLaunch_noTemplate b fs bld dirRuntime hdl _ content hwd hfs hsid2 hbld]
    exact ⟨rfl, rfl⟩

/-- C5 witness. -/
theorem codex_resume_notFound_and_config_witness :
    ((Codex.New (some (fakeTmux []))).Resume (fun _ => none) (fun _ _ => "")
        "runtime" demoHandle).1 =
      Except.error ("codex runtime resume missing session id in " ++ demoHandle.workDir) ∧
    ((Codex.New (some (fakeTmux []))).Resume (fun _ => some " sid-1 ") (fun _ _ => "")
        "runtime" demoHandle).1 =
      Except.error "codex runtime resume command unavailable" := by
  constructor
  · exact ((codex_resume_notFound_and_config (fakeTmux []) (fun _ => none) (fun _ _ => "")
      "runtime" demoHandle (by decide) rfl
      (fun cmd h => by
        simp only [fakeTmux] at h
        cases h
        exact ⟨by decide, by decide⟩)
      (by decide)).1 rfl).1
  · exact ((codex_resume_notFound_and_config (fakeTmux []) (fun _ => some " sid-1 ")
      (fun _ _ => "") "runtime" demoHandle (by decide) rfl
      (fun cmd h => by
        simp only [fakeTmux] at h
        cases h
        exact ⟨by decide, by decide⟩)
      (by decide)).2 " sid-1 " rfl (by decide) rfl).1

/-- C6: for both adapters, SendMessage with a delivery channel outside
the adapter's supported set (neither empty nor tmux for claude;
additionally not stdin for codex — e.g. "rpc" for either) returns the
unsupported-delivery error and performs no backend call. -/
theorem sendMessage_unsupported_channel (b : TmuxBehavior) (hdl : SessionHandle)
    (msg : Message) (h1 : msg.delivery ≠ "") (h2 : msg.delivery ≠ DeliveryTmux) :
    (Claude.New (some b)).SendMessage hdl msg =
      (Except.error "claude runtime only supports tmux delivery", []) ∧
    (msg.delivery ≠ DeliveryStdin →
      (Codex.New (some b)).SendMessage hdl msg =
        (Except.error "codex runtime only supports tmux/stdin delivery", [])) := by
  constructor
  · simp only [Claude.Runtime.SendMessage, Claude.New]
    rw [if_pos ⟨h1, h2⟩]
  · intro h3
    simp only [Codex.Runtime.SendMessage, Codex.New]
    rw [if_neg]
    rintro (h | h | h)
    · exact h1 h
    · exact h2 h
    · exact h3 h

/-- C6 witness. -/
theorem sendMessage_unsupported_channel_witness :
    (Claude.New (some (fakeTmux []))).SendMessage demoHandle
        { text := "hi", delivery := "rpc", timeout := 0 } =
      (Except.error "claude runtime only supports tmux delivery", []) ∧
    (Codex.New (some (fakeTmux []))).SendMessage demoHandle
        { text := "hi", delivery := "rpc", timeout := 0 } =
      (Except.error "codex runtime only supports tmux/stdin delivery", []) := by
  have h := sendMessage_unsupported_channel (fakeTmux []) demoHandle
      { text := "hi", delivery := "rpc", timeout := 0 } (by decide) (by decide)
  exact ⟨h.1, h.2 (by decide)⟩

/-- C7: Registry.Get for a name never registered returns the
not-registered error and constructs no adapter; for a registered name
it returns the adapter built by the most recently registered factory
for the name. -/
theorem registry_get_notFound_and_latest {A : Type}
    (regs : List (String × (Option TmuxBehavior → A))) (name : String)
    (t : Option TmuxBehavior) :
    ((∀ p ∈ regs, p.1 ≠ name) →
      Registry.Get regs name t = Except.error ("runtime not registered: " ++ name)) ∧
    (∀ l₁ f l₂, regs = l₁ ++ (name, f) :: l₂ → (∀ p ∈ l₂, p.1 ≠ name) →
      Registry.Get regs name t = Except.ok (f t)) := by
  constructor
  · intro h
    unfold Registry.Get
    rw [lookupFactory_not_mem regs name h]
  · intro l₁ f l₂ hregs h
    unfold Registry.Get
    rw [hregs, lookupFactory_append_last l₁ l₂ name f h]

/-- C7 witness. -/
theorem registry_get_notFound_and_latest_witness :
    Registry.Get ([] : List (String × (Option TmuxBehavior → Claude.Runtime))) "ghost" none =
      Except.error "runtime not registered: ghost" ∧
    Registry.Get [("claude", demoFactoryOld), ("claude", demoFactory)] "claude" none =
      Except.ok (demoFactory none) := by
  constructor
  · exact (registry_get_notFound_and_latest
      ([] : List (String × (Option TmuxBehavior → Claude.Runtime))) "ghost" none).1
      (fun p hp => absurd hp (List.not_mem_nil p))
  · exact (registry_get_notFound_and_latest
      [("claude", demoFactoryOld), ("claude", demoFactory)] "claude" none).2
      [("claude", demoFactoryOld)] demoFactory [] rfl
      (fun p hp => absurd hp (List.not_mem_nil p))

/-- C8 (counterexample): with a cancelled context and a backend that
never shows a prompt, IsReady still performs every poll of its full
2-second budget instead of exiting promptly. -/
theorem claude_isReady_cancel_counterexample :
    ((Claude.New (some (fakeTmux ["still starting"]))).IsReady
        { cancelled := true } demoHandle).2 = numPolls Claude.isReadyTimeoutMs ∧
    ¬ (((Claude.New (some (fakeTmux ["still starting"]))).IsReady
        { cancelled := true } demoHandle).2 < numPolls Claude.isReadyTimeoutMs) ∧
    ((Claude.New (some (fakeTmux ["still starting"]))).IsReady
        { cancelled := true } demoHandle).1 = Except.ok false := by
  refine ⟨rfl, by decide, rfl⟩

/-- C8 (amended): the readiness poll loop ignores the caller's context
entirely: IsReady returns identical results for any two contexts, and
on a backend that never shows a prompt it always runs its full
configured poll budget before reporting false. -/
theorem claude_isReady_ctx_independent (b : TmuxBehavior) (ctx ctx' : Ctx)
    (hdl : SessionHandle)
    (hnever : ∀ k lines, b.capture hdl.sessionID k = some lines →
      lines.any Claude.isPromptLine = false) :
    (Claude.New (some b)).IsReady ctx hdl = (Claude.New (some b)).IsReady ctx' hdl ∧
    ((Claude.New (some b)).IsReady ctx hdl).2 = numPolls Claude.isReadyTimeoutMs ∧
    ((Claude.New (some b)).IsReady ctx hdl).1 = Except.ok false := by
  have hw := waitLoop_never (b.capture hdl.sessionID) hnever
    (numPolls Claude.isReadyTimeoutMs) 0
  refine ⟨rfl, ?_, ?_⟩ <;>
    simp only [Claude.Runtime.IsReady, Claude.New, Claude.WaitForClaudeReady, hw]

/-- C8 witness. -/
theorem claude_isReady_ctx_independent_witness :
    (Claude.New (some (fakeTmux ["still starting"]))).IsReady
        { cancelled := true } demoHandle =
      (Claude.New (some (fakeTmux ["still starting"]))).IsReady
        { cancelled := false } demoHandle ∧
    ((Claude.New (some (fakeTmux ["still starting"]))).IsReady
        { cancelled := true } demoHandle).2 = numPolls Claude.isReadyTimeoutMs := by
  have h := claude_isReady_ctx_independent (fakeTmux ["still starting"])
      { cancelled := true } { cancelled := false } demoHandle
      (fun k lines hl => by
        simp only [fakeTmux] at hl
        cases hl
        decide)
  exact ⟨h.1, h.2.1⟩

/-- C9: the claude adapter's ListSessions result is independent of the
Runtime field of the filter: filters agreeing on WorkDir produce
identical results over the same backend. -/
theorem claude_listSessions_runtime_independent (r : Claude.Runtime)
    (f₁ f₂ : SessionFilter) (h : f₁.workDir = f₂.workDir) :
    r.ListSessions f₁ = r.ListSessions f₂ := by
  cases hr : r.tmux with
  | none => simp [Claude.Runtime.ListSessions, hr]
  | some b => simp only [Claude.Runtime.ListSessions, hr, h]

/-- C9 witness. -/
theorem claude_listSessions_runtime_independent_witness :
    (Claude.New (some (fakeTmux []))).ListSessions { runtime := "claude", workDir := "/w" } =
      (Claude.New (some (fakeTmux []))).ListSessions { runtime := "rpc-thing", workDir := "/w" } :=
  claude_listSessions_runtime_independent (Claude.New (some (fakeTmux [])))
    { runtime := "claude", workDir := "/w" } { runtime := "rpc-thing", workDir := "/w" } rfl

/-- C10: SendMessage with an empty delivery-channel string is accepted
as the default terminal channel and handed to the delivery path, even
though the empty string is none of the documented channels. -/
theorem claude_sendMessage_empty_delivery (b : TmuxBehavior) (hdl : SessionHandle)
    (text : String) (timeout : Nat) :
    (Claude.New (some b)).SendMessage hdl { text := text, delivery := "", timeout := timeout } =
      Claude.nudgeSession b hdl.sessionID text ∧
    ("" ≠ DeliveryStdin ∧ "" ≠ DeliveryTmux ∧ "" ≠ DeliveryRPC) := by
  constructor
  · simp [Claude.Runtime.SendMessage, Claude.New]
  · refine ⟨?_, ?_, ?_⟩ <;> decide
